import Mathlib

/-!
Verification of the schema-normalizing ingestion pipeline in `events.py`.

The Python source is shallowly embedded: pure functions become Lean
functions over `List Char` / `String` / explicit association lists, the
dynamic JSON document values become the tagged `Json` type, and Spark
cell values become the tagged `CellVal` type.  Machine floats never
matter for the verified claims, so the value a Spark `cast(DoubleType())`
produces is represented by the numeric literal string the cast consumed.
-/

namespace Events

/-- Characters kept by `re.sub(r"[^0-9a-zA-Z_]", "_", key)` in
`_sanitize_column_name` / `flatten_json.sanitize_key` (events.py lines
159-163 and 358-362): the ASCII ranges 0-9, A-Z, a-z, and underscore,
written as code-point ranges. -/
def keepChar (c : Char) : Bool :=
  (48 ≤ c.toNat && c.toNat ≤ 57) || (65 ≤ c.toNat && c.toNat ≤ 90) ||
    (97 ≤ c.toNat && c.toNat ≤ 122) || c == '_'

/-- One character of the substitution step: a character outside
`[0-9a-zA-Z_]` becomes an underscore. -/
def substChar (c : Char) : Char := if keepChar c then c else '_'

/-- An ASCII digit 0-9, as tested by `re.match(r"^\d", key)` on a string
whose characters are already restricted to `[0-9A-Za-z_]`. -/
def isAsciiDigit (c : Char) : Bool := 48 ≤ c.toNat && c.toNat ≤ 57

/-- Whether the first character of the list is an ASCII digit
(`re.match(r"^\d", key)`). -/
def headIsDigit (l : List Char) : Bool :=
  match l with
  | [] => false
  | c :: _ => isAsciiDigit c

/-- `_sanitize_column_name` (events.py 358-362) on the character list:
substitute characters outside `[0-9a-zA-Z_]` with `_`, prepend `COL_`
when the result starts with a digit, then uppercase.  All characters are
ASCII after the substitution, so Python `str.upper()` is `Char.toUpper`
pointwise. -/
def sanitizeL (s : List Char) : List Char :=
  let t := s.map substChar
  let t2 := if headIsDigit t then 'C' :: 'O' :: 'L' :: '_' :: t else t
  t2.map Char.toUpper

/-- `DataIntegrator._sanitize_column_name` (events.py 358-362). -/
def sanitize_column_name (s : String) : String := String.mk (sanitizeL s.data)

/-- `flatten_json.sanitize_key` (events.py 159-163); its body is
identical to `_sanitize_column_name`. -/
def sanitize_key (s : String) : String := sanitize_column_name s

/-- Python `str.upper()` on the ASCII column names that reach
`_write_to_snowflake` (`row[0].upper()`, `field.name.upper()`). -/
def pyUpper (s : String) : String := String.mk (s.data.map Char.toUpper)

/-- A MongoDB document value: an arbitrarily nested tree of maps,
sequences and scalars.  Numeric literals are modelled as integers; no
verified claim computes with a numeric leaf value. -/
inductive Json where
  | null
  | bool (b : Bool)
  | num (n : Int)
  | str (s : String)
  | arr (elems : List Json)
  | obj (fields : List (String × Json))

/-- Overwrite the counter stored for `key` in the registry
(`path_counts[key] = n`). -/
def bump (counts : List (String × Nat)) (key : String) (n : Nat) : List (String × Nat) :=
  counts.map (fun p => if p.1 == key then (key, n) else p)

/-- `flatten_json.get_unique_key` (events.py 153-158): first request of a
key returns it unchanged and records counter 0; each later request of the
same key increments the counter and returns `key_<counter>`. -/
def get_unique_key (counts : List (String × Nat)) (key : String) :
    String × List (String × Nat) :=
  match counts.lookup key with
  | some n => (key ++ "_" ++ toString (n + 1), bump counts key (n + 1))
  | none => (key, counts ++ [(key, 0)])

mutual

/-- The item list built by one invocation of `flatten_json`
(events.py 150-185) before the final Python `dict(items)` conversion.
Each invocation owns a fresh `path_counts` registry; the registry is
threaded only through the direct leaf children of the current container
(`flattenFields` / `flattenElems`), and a nested object or sequence
recurses with a fresh registry, exactly as in the source where
`path_counts` is local to each `flatten_json` call.  `sep` is always its
default `"_"`. -/
def flattenItems : Json → String → List (String × Json)
  | Json.obj fields, parent => (flattenFields fields parent []).1
  | Json.arr elems, parent => (flattenElems elems 0 parent []).1
  | data, parent => [((get_unique_key [] (sanitize_key parent)).1, data)]

/-- The `isinstance(data, dict)` branch of `flatten_json`: iterate the
fields in order, composing `parent_key + "_" + k`, sanitizing
immediately, recursing on nested containers and uniquifying leaves
against the per-document registry. -/
def flattenFields : List (String × Json) → String → List (String × Nat) →
    List (String × Json) × List (String × Nat)
  | [], _, counts => ([], counts)
  | (k, v) :: rest, parent, counts =>
    let new_key := sanitize_key (if parent == "" then k else parent ++ "_" ++ k)
    match v with
    | Json.obj _ | Json.arr _ =>
      let sub := flattenItems v new_key
      let r := flattenFields rest parent counts
      (sub ++ r.1, r.2)
    | _ =>
      let u := get_unique_key counts new_key
      let r := flattenFields rest parent u.2
      ((u.1, v) :: r.1, r.2)

/-- The `isinstance(data, list)` branch of `flatten_json`: each index
becomes a path segment. -/
def flattenElems : List Json → Nat → String → List (String × Nat) →
    List (String × Json) × List (String × Nat)
  | [], _, _, counts => ([], counts)
  | v :: rest, i, parent, counts =>
    let new_key := sanitize_key (if parent == "" then toString i else parent ++ "_" ++ toString i)
    match v with
    | Json.obj _ | Json.arr _ =>
      let sub := flattenItems v new_key
      let r := flattenElems rest (i + 1) parent counts
      (sub ++ r.1, r.2)
    | _ =>
      let u := get_unique_key counts new_key
      let r := flattenElems rest (i + 1) parent u.2
      ((u.1, v) :: r.1, r.2)

end

/-- One step of Python `dict(items)` construction: a repeated key keeps
its first position and takes the later value; a new key is appended. -/
def pyDictUpdate (acc : List (String × Json)) (kv : String × Json) : List (String × Json) :=
  if acc.any (fun p => p.1 == kv.1) then
    acc.map (fun p => if p.1 == kv.1 then kv else p)
  else
    acc ++ [kv]

/-- Python `dict(items)`: fold the item list left to right, later
bindings of an equal key overwriting earlier ones. -/
def pyDict (items : List (String × Json)) : List (String × Json) :=
  items.foldl pyDictUpdate []

/-- `flatten_json(data)` (events.py 150-185): the item list of the
top-level invocation, collapsed by `dict(items)`. -/
def flatten_json (d : Json) : List (String × Json) :=
  pyDict (flattenItems d "")

mutual

/-- Number of leaves (non-object, non-sequence positions) of a document;
each leaf is one `(final_key, value)` item appended by `flatten_json`. -/
def numLeaves : Json → Nat
  | Json.obj fields => numLeavesFields fields
  | Json.arr elems => numLeavesElems elems
  | _ => 1

/-- Leaf count of an object's field list. -/
def numLeavesFields : List (String × Json) → Nat
  | [] => 0
  | (_, v) :: rest => numLeaves v + numLeavesFields rest

/-- Leaf count of a sequence's element list. -/
def numLeavesElems : List Json → Nat
  | [] => 0
  | v :: rest => numLeaves v + numLeavesElems rest

end

/-- JSON string escaping for the only characters the embedded documents
can require: backslash and double quote. -/
def escapeJsonChar (c : Char) : List Char :=
  if c = '"' then ['\\', '"'] else if c = '\\' then ['\\', '\\'] else [c]

/-- Escape a string for inclusion in JSON text. -/
def escapeJson (s : String) : String := String.mk ((s.data.map escapeJsonChar).flatten)

mutual

/-- Compact JSON text of a value, as Jackson renders a sub-tree when
Spark's `from_json` meets a non-string token under a `StringType`
target, and as Spark's `to_json` writes values: no whitespace,
`","` and `":"` separators. -/
def sparkJsonText : Json → String
  | Json.null => "null"
  | Json.bool b => if b then "true" else "false"
  | Json.num n => toString n
  | Json.str s => "\"" ++ escapeJson s ++ "\""
  | Json.arr es => "[" ++ sparkJsonTextElems es ++ "]"
  | Json.obj fs => "\x7b" ++ sparkJsonTextFields fs ++ "\x7d"

/-- Compact serialization of an object's field list. -/
def sparkJsonTextFields : List (String × Json) → String
  | [] => ""
  | [(k, v)] => "\"" ++ escapeJson k ++ "\":" ++ sparkJsonText v
  | (k, v) :: rest => "\"" ++ escapeJson k ++ "\":" ++ sparkJsonText v ++ "," ++ sparkJsonTextFields rest

/-- Compact serialization of a sequence's element list. -/
def sparkJsonTextElems : List Json → String
  | [] => ""
  | [v] => sparkJsonText v
  | v :: rest => sparkJsonText v ++ "," ++ sparkJsonTextElems rest

end

/-- How `from_json(col, MapType(StringType(), StringType()))` reads one
map value (events.py 256-258): a JSON string parses as itself, a JSON
null stays null, and every other token — number, boolean, nested array
or object — is captured as its raw JSON text, so nested structure is
stringified. -/
def stringifyValue : Json → Json
  | Json.null => Json.null
  | Json.str s => Json.str s
  | j => Json.str (sparkJsonText j)

/-- The `map<string,string>` that `create_dataframe_from_documents`
(events.py 232-260) produces for one document: the top-level object's
fields with every value stringified by the `from_json` round trip.
MongoDB documents are always objects; a non-object document is modelled
as the empty map. -/
def stringMapOfDoc (doc : Json) : List (String × Json) :=
  match doc with
  | Json.obj fields => fields.map (fun p => (p.1, stringifyValue p.2))
  | _ => []

/-- One value of the string map as `to_json` writes it; by construction
the map holds only strings and nulls. -/
def sparkJsonValue : Json → String
  | Json.null => "null"
  | Json.str s => "\"" ++ escapeJson s ++ "\""
  | j => sparkJsonText j

/-- `to_json` of the string map's field list. -/
def sparkToJsonFields : List (String × Json) → String
  | [] => ""
  | [(k, v)] => "\"" ++ escapeJson k ++ "\":" ++ sparkJsonValue v
  | (k, v) :: rest =>
    "\"" ++ escapeJson k ++ "\":" ++ sparkJsonValue v ++ "," ++ sparkToJsonFields rest

/-- `to_json(col("data"))` (events.py 258): the `json_data` string for
one document's string map. -/
def sparkToJson (m : List (String × Json)) : String :=
  "\x7b" ++ sparkToJsonFields m ++ "\x7d"

/-- A Spark cell value of the string-typed columns that
`process_batch_with_schema` selects: either a string or null.  Every
data column is read out of a `map<string,string>` and the payload column
is a serialized JSON string, so no other value shape occurs before
`_infer_and_cast_types` — which then fails analysis before producing any
differently-typed cell. -/
inductive CellVal where
  | null
  | str (s : String)
deriving DecidableEq

/-- The exemption list of `_infer_and_cast_types` (events.py 367-369),
verbatim: note every entry is upper case. -/
def metadataExemptCols : List String :=
  ["FULL_JSON_PAYLOAD", "ETL_CREATED_DATE", "ETL_LAST_UPDATE_DATE",
    "CREATED_BY", "TO_PROCESS", "EDW_EXTERNAL_SOURCE_SYSTEM"]

/-- One row of a processed batch: column name to cell value, in select
order. -/
abbrev Row := List (String × CellVal)

/-- The Spark SQL data types occurring in the expressions that
`_infer_and_cast_types` builds: the string-typed source columns, the
`lit(True)`/`lit(False)` boolean branch values, and the
`cast(DoubleType())` branch value. -/
inductive SparkType where
  | stringT
  | booleanT
  | doubleT
deriving DecidableEq

/-- The error a PySpark `withColumn` surfaces when a `CASE WHEN`'s
branch and else types admit no common wider type; PySpark analyzes
eagerly, so the exception is raised inside `_infer_and_cast_types`. -/
def analysisErrMsg : String :=
  "AnalysisException: THEN and ELSE expressions should all be same type or coercible to a common type"

/-- Spark's `TypeCoercion.findWiderTypeForTwo` restricted to the types
at hand: equal types unify, and `stringPromotion` widens a string with
an atomic type to string — but it explicitly excludes `BooleanType`
(and `BinaryType`), so boolean/string has no common type, and neither
has boolean/double. -/
def findWiderTypeForTwo : SparkType → SparkType → Option SparkType
  | t1, t2 =>
    if t1 = t2 then some t1
    else
      match t1, t2 with
      | SparkType.stringT, SparkType.doubleT => some SparkType.stringT
      | SparkType.doubleT, SparkType.stringT => some SparkType.stringT
      | _, _ => none

/-- The result type Spark's `CaseWhenCoercion` assigns to a `CASE WHEN`
with the given branch value types and else type: the wider common type
of all of them, or none — an `AnalysisException` — when unification
fails. -/
def sparkCaseWhenType (branchTypes : List SparkType) (elseType : SparkType) :
    Option SparkType :=
  branchTypes.foldl (fun acc t => acc.bind (fun u => findWiderTypeForTwo u t)) (some elseType)

/-- Result type of the first `withColumn` of `_infer_and_cast_types`
(events.py 374-379): `when(isin, True).when(isin, False).otherwise(col)`
— two boolean branches against the column itself as else. -/
def booleanStepColumnType (t : SparkType) : Option SparkType :=
  sparkCaseWhenType [SparkType.booleanT, SparkType.booleanT] t

/-- Result type of the second `withColumn` (events.py 381-387):
`when(rlike, cleaned.cast(DoubleType())).otherwise(col)` — one double
branch against the column as else; against a string column the `CASE
WHEN` widens to string, so even this step could never yield a
double-typed cell. -/
def numericStepColumnType (t : SparkType) : Option SparkType :=
  sparkCaseWhenType [SparkType.doubleT] t

/-- `_infer_and_cast_types` (events.py 364-388) at the schema level:
walk the DataFrame's fields in order; a column whose exact name is in
the exemption list is skipped; for any other column the boolean `CASE
WHEN` and then the numeric `CASE WHEN` must analyze, and the first
column on which analysis fails raises, aborting the whole call. -/
def infer_and_cast_types : List (String × SparkType) → Except String (List (String × SparkType))
  | [] => Except.ok []
  | (name, t) :: rest =>
    if metadataExemptCols.contains name then
      Except.map (fun r => (name, t) :: r) (infer_and_cast_types rest)
    else
      match booleanStepColumnType t with
      | none => Except.error analysisErrMsg
      | some u =>
        match numericStepColumnType u with
        | none => Except.error analysisErrMsg
        | some w => Except.map (fun r => (name, w) :: r) (infer_and_cast_types rest)

/-- The schema of a processed row: `process_batch_with_schema` selects
the payload string column and `map<string,string>` items, so every
column is string-typed. -/
def rowSchema (r : Row) : List (String × SparkType) :=
  r.map (fun p => (p.1, SparkType.stringT))

/-- One row of the DataFrame produced by `flatten_dataframe`
(events.py 263-293): the `full_json_payload` column aliasing the
incoming `json_data` serialization, and the `flattened` column produced
by the `flatten_json` UDF. -/
structure PayloadRow where
  full_json_payload : String
  flattened : List (String × Json)

/-- `flatten_dataframe` on the row for one source document: `json_data`
is the `to_json` of the document's string map (the `from_json` round
trip of `create_dataframe_from_documents` having already stringified
nested values), and the UDF `json.loads(json_data)` recovers exactly
that string map — `to_json` followed by `json.loads` is the identity at
the map level — and flattens it.  Nested structure therefore reaches
`flatten_json` only as JSON text inside string leaves. -/
def flatten_dataframe_row (doc : Json) : PayloadRow :=
  { full_json_payload := sparkToJson (stringMapOfDoc doc)
    flattened := flatten_json (Json.obj (stringMapOfDoc doc)) }

/-- Reading a value of the Spark `map<string,string>` obtained by
`from_json(col("flattened"), MapType(StringType(), StringType()))`:
a string value arrives as itself, null stays null, anything else as its
raw JSON text (the flattened maps hold only strings and nulls anyway). -/
def cellOfJson : Json → CellVal
  | Json.null => CellVal.null
  | Json.str s => CellVal.str s
  | j => CellVal.str (sparkJsonText j)

/-- `coalesce(col("data_map").getItem(field), lit(None))` (events.py
345): the cell for `field`, null when the row's flattened map lacks the
field. -/
def getItemCell (m : List (String × Json)) (field : String) : CellVal :=
  match m.lookup field with
  | some j => cellOfJson j
  | none => CellVal.null

/-- Lexicographic code-point comparison of character lists, as Python
compares strings. -/
def strLeChars : List Char → List Char → Bool
  | [], _ => true
  | _ :: _, [] => false
  | a :: as, b :: bs =>
    if a.toNat < b.toNat then true
    else if b.toNat < a.toNat then false
    else strLeChars as bs

/-- Python `<=` on strings: lexicographic by code point. -/
def strLe (a b : String) : Bool := strLeChars a.data b.data

/-- Insertion into a lexicographically sorted list of strings. -/
def insertSorted (x : String) : List String → List String
  | [] => [x]
  | y :: rest => if strLe x y then x :: y :: rest else y :: insertSorted x rest

/-- Python `sorted(all_fields)`: lexicographic string sort. -/
def sortFields (l : List String) : List String := l.foldr insertSorted []

/-- The `sanitized_map` loop of `process_batch_with_schema` (events.py
323-334): walk the sorted fields, sanitize each, and give the second and
later fields that sanitize to an already-seen name a numeric suffix
(`name_counts` starts at 1, so the first duplicate receives `_2`).
Returns the `(field, unique_name)` pairs in iteration order. -/
def buildSanMap : List String → List (String × Nat) → List (String × String)
  | [], _ => []
  | f :: rest, counts =>
    let s := sanitize_column_name f
    match counts.lookup s with
    | some n => (f, s ++ "_" ++ toString (n + 1)) :: buildSanMap rest (bump counts s (n + 1))
    | none => (f, s) :: buildSanMap rest (counts ++ [(s, 1)])

/-- `process_batch_with_schema` on one row (events.py 316-356): with no
fields, only `full_json_payload` is selected; otherwise the select list
is `full_json_payload` followed by, for each sorted field, the cell
`coalesce(data_map.getItem(field), null)` aliased to the field's unique
sanitized name. -/
def process_batch_row (all_fields : List String) (r : PayloadRow) : Row :=
  if all_fields.isEmpty then [("full_json_payload", CellVal.str r.full_json_payload)]
  else
    let sanMap := buildSanMap (sortFields all_fields) []
    ("full_json_payload", CellVal.str r.full_json_payload) ::
      sanMap.map (fun p => (p.2, getItemCell r.flattened p.1))

/-- The state of `ThreadSafeSchemaTracker` (events.py 105-119):
the running union `all_fields`, the per-batch map `batch_schemas`
keyed `batch_<n>`, and `batch_count`. -/
structure SchemaTrackerState where
  all_fields : Finset String
  batch_schemas : List (String × Finset String)
  batch_count : Nat

/-- A fresh tracker (`__init__`). -/
def initTracker : SchemaTrackerState := ⟨∅, [], 0⟩

/-- `add_batch_schema(fields)` (events.py 111-116): bump the batch
counter, record the batch's field set, and union it into `all_fields`. -/
def add_batch_schema (t : SchemaTrackerState) (fields : Finset String) : SchemaTrackerState :=
  { all_fields := t.all_fields ∪ fields
    batch_schemas := t.batch_schemas ++ [("batch_" ++ toString (t.batch_count + 1), fields)]
    batch_count := t.batch_count + 1 }

/-- `get_unified_schema()` (events.py 117-119): a copy of the running
union. -/
def get_unified_schema (t : SchemaTrackerState) : Finset String := t.all_fields

/-- A sequence of `add_batch_schema` calls in order. -/
def observeAll (t : SchemaTrackerState) (l : List (Finset String)) : SchemaTrackerState :=
  l.foldl add_batch_schema t

/-- What `_write_to_snowflake` (events.py 417-478) does to schemas: the
DDL statements issued and the columns of the DataFrame passed to the
overwrite-mode load. -/
structure SnowflakeWritePlan where
  altersIssued : List String
  loadedColumns : List String

/-- `_write_to_snowflake`, schema part: introspected column names are
uppercased into `existing_cols`; every DataFrame field whose uppercased
name is missing gets an `ALTER TABLE ... ADD COLUMN`; the DataFrame is
then written as-is with `mode("overwrite")` — no column is added to or
backfilled into the DataFrame. -/
def write_to_snowflake_plan (introspectedCols : List String) (dfCols : List String) :
    SnowflakeWritePlan :=
  let existing := introspectedCols.map pyUpper
  { altersIssued := (dfCols.map pyUpper).filter (fun c => !existing.contains c)
    loadedColumns := dfCols }

/-- The save mode of the ADLS write (events.py 408). -/
def adlsWriteMode : String := "overwrite"

/-- The save mode of the Snowflake load (events.py 471). -/
def snowflakeSaveMode : String := "overwrite"

/-- The configured output identifier appended to every target path and
table name (events.py 39). -/
def duplicateSuffix : String := "WITH_DUPES2"

/-- The batch merge of `read_mongodb_collection` (events.py 580-583):
`unionByName` folded over the processed batches, i.e. row concatenation
in batch order.  No deduplication step exists anywhere in the flow. -/
def mergeBatches (batches : List (List Row)) : List Row := batches.flatten

/-- Whether a row's `_ID` column (the sanitized MongoDB `_id`) holds the
given value. -/
def rowHasId (r : Row) (v : CellVal) : Bool := r.lookup "_ID" == some v

/-- How many rows of the output carry the given `_ID` value. -/
def countRowsWithMongoId (rows : List Row) (v : CellVal) : Nat :=
  (rows.filter (fun r => rowHasId r v)).length

/-- C1 counterexample document: the leaf at path `a.b` and the top-level
field `a_b` sanitize to the same column name from different nesting
levels. -/
def exDocC1 : Json :=
  Json.obj [("a", Json.obj [("b", Json.num 1)]), ("a_b", Json.num 2)]

/-- C4 document whose field `X` is a nested object. -/
def exDocC4obj : Json := Json.obj [("X", Json.obj [("A", Json.num 1)])]

/-- C4 document whose field `X` is a primitive string. -/
def exDocC4prim : Json := Json.obj [("X", Json.str "hi")]

/-- C10 failing document: its serialized payload strips to the digit
string "1", which matches the numeric pattern. -/
def exDocC10 : Json := Json.obj [("a", Json.str "1")]

/-- Substituted characters are themselves in the kept character class. -/
theorem keep_substChar (c : Char) : keepChar (substChar c) = true := by
  by_cases h : keepChar c = true
  · simp [substChar, h]
  · simp [substChar, h]
    decide

/-- `Char.toUpper` fixes characters outside the lowercase code-point
range. -/
theorem toUpper_eq_of_not_lower {c : Char} (h : ¬ (97 ≤ c.toNat ∧ c.toNat ≤ 122)) :
    c.toUpper = c := by
  simp only [Char.toUpper]
  rw [if_neg h]

/-- `Char.toUpper` on a lowercase code point subtracts 32. -/
theorem toUpper_eq_of_lower {c : Char} (h1 : 97 ≤ c.toNat) (h2 : c.toNat ≤ 122) :
    c.toUpper = Char.ofNat (c.toNat - 32) := by
  simp only [Char.toUpper]
  rw [if_pos ⟨h1, h2⟩]

/-- Uppercasing any lowercase code point lands in the kept class, is not
a digit, and is not lowercase. -/
theorem ofNat_upper_facts (n : Nat) (h1 : 97 ≤ n) (h2 : n ≤ 122) :
    keepChar (Char.ofNat (n - 32)) = true ∧ isAsciiDigit (Char.ofNat (n - 32)) = false ∧
      ¬ (97 ≤ (Char.ofNat (n - 32)).toNat ∧ (Char.ofNat (n - 32)).toNat ≤ 122) := by
  interval_cases n <;> exact ⟨by decide, by decide, by decide⟩

/-- Membership characterization of the kept character class. -/
theorem keep_iff (c : Char) :
    keepChar c = true ↔
      ((48 ≤ c.toNat ∧ c.toNat ≤ 57) ∨ (65 ≤ c.toNat ∧ c.toNat ≤ 90) ∨
        (97 ≤ c.toNat ∧ c.toNat ≤ 122) ∨ c = '_') := by
  simp [keepChar, Bool.or_eq_true, Bool.and_eq_true, decide_eq_true_eq, beq_iff_eq, or_assoc]

/-- Code-point characterization of `isAsciiDigit`. -/
theorem isAsciiDigit_iff (c : Char) :
    isAsciiDigit c = true ↔ 48 ≤ c.toNat ∧ c.toNat ≤ 57 := by
  simp [isAsciiDigit, Bool.and_eq_true, decide_eq_true_eq]

/-- Uppercasing a kept character gives a character fixed by both the
substitution and by uppercasing, with an unchanged digit test. -/
theorem stable_of_keep {d : Char} (hk : keepChar d = true) :
    substChar d.toUpper = d.toUpper ∧ d.toUpper.toUpper = d.toUpper ∧
      isAsciiDigit d.toUpper = isAsciiDigit d := by
  by_cases hl : 97 ≤ d.toNat ∧ d.toNat ≤ 122
  · obtain ⟨h1, h2⟩ := hl
    rw [toUpper_eq_of_lower h1 h2]
    obtain ⟨k, dg, nl⟩ := ofNat_upper_facts d.toNat h1 h2
    refine ⟨by simp [substChar, k], toUpper_eq_of_not_lower nl, ?_⟩
    rw [dg]
    have hd : isAsciiDigit d = false := by
      rw [← Bool.not_eq_true, isAsciiDigit_iff]
      omega
    rw [hd]
  · rw [toUpper_eq_of_not_lower hl]
    exact ⟨by simp [substChar, hk], toUpper_eq_of_not_lower hl, rfl⟩

/-- A pointwise-fixed map is the identity on a list. -/
theorem map_self_of_forall {f : Char → Char} :
    ∀ l : List Char, (∀ x ∈ l, f x = x) → l.map f = l
  | [], _ => rfl
  | x :: xs, h => by
    simp only [List.map_cons, h x (by simp)]
    rw [map_self_of_forall xs (fun y hy => h y (by simp [hy]))]

/-- Every character of the pre-uppercase stage of `sanitizeL` is kept. -/
theorem keep_of_mem_t2 (l : List Char) (y : Char)
    (hy : y ∈ (if headIsDigit (l.map substChar) then
        'C' :: 'O' :: 'L' :: '_' :: l.map substChar else l.map substChar)) :
    keepChar y = true := by
  have hmap : ∀ z ∈ l.map substChar, keepChar z = true := by
    intro z hz
    obtain ⟨c, _, rfl⟩ := List.mem_map.mp hz
    exact keep_substChar c
  by_cases h : headIsDigit (l.map substChar)
  · rw [if_pos h] at hy
    simp only [List.mem_cons] at hy
    rcases hy with rfl | rfl | rfl | rfl | hy
    · decide
    · decide
    · decide
    · decide
    · exact hmap y hy
  · rw [if_neg h] at hy
    exact hmap y hy

/-- Every character of a sanitized name is fixed by the substitution and
by uppercasing. -/
theorem stable_sanitizeL (l : List Char) (x : Char) (hx : x ∈ sanitizeL l) :
    substChar x = x ∧ x.toUpper = x := by
  simp only [sanitizeL] at hx
  obtain ⟨y, hy, rfl⟩ := List.mem_map.mp hx
  have := stable_of_keep (keep_of_mem_t2 l y hy)
  exact ⟨this.1, this.2.1⟩

/-- The substitution step preserves the digit test of a character. -/
theorem substChar_isAsciiDigit (c : Char) : isAsciiDigit (substChar c) = isAsciiDigit c := by
  by_cases h : keepChar c = true
  · simp [substChar, h]
  · have hc : isAsciiDigit c = false := by
      rw [← Bool.not_eq_true]
      intro hd
      exact h ((keep_iff c).mpr (Or.inl ((isAsciiDigit_iff c).mp hd)))
    rw [hc]
    have hs : substChar c = '_' := by simp [substChar, h]
    rw [hs]
    decide

/-- A sanitized name never starts with a digit. -/
theorem headIsDigit_sanitizeL (l : List Char) : headIsDigit (sanitizeL l) = false := by
  simp only [sanitizeL]
  by_cases h : headIsDigit (l.map substChar)
  · rw [if_pos h]
    simp only [List.map_cons, headIsDigit]
    decide
  · rw [if_neg h]
    cases l with
    | nil => rfl
    | cons c cs =>
      simp only [List.map_cons, headIsDigit, Bool.not_eq_true] at h
      simp only [List.map_cons, headIsDigit]
      rw [(stable_of_keep (keep_substChar c)).2.2]
      exact h

/-- `sanitizeL` is idempotent at the character-list level. -/
theorem sanitizeL_idem (l : List Char) : sanitizeL (sanitizeL l) = sanitizeL l := by
  have h1 : (sanitizeL l).map substChar = sanitizeL l :=
    map_self_of_forall _ (fun x hx => (stable_sanitizeL l x hx).1)
  have h3 : (sanitizeL l).map Char.toUpper = sanitizeL l :=
    map_self_of_forall _ (fun x hx => (stable_sanitizeL l x hx).2)
  calc sanitizeL (sanitizeL l)
      = (if headIsDigit ((sanitizeL l).map substChar) then
          'C' :: 'O' :: 'L' :: '_' :: (sanitizeL l).map substChar
        else (sanitizeL l).map substChar).map Char.toUpper := rfl
    _ = sanitizeL l := by
        rw [h1, headIsDigit_sanitizeL, if_neg (by simp)]
        exact h3

/-- C9 (confirmed): `sanitize` is idempotent — applying
`_sanitize_column_name` to its own output returns that output unchanged,
for every input string. -/
theorem sanitize_idempotent (s : String) :
    sanitize_column_name (sanitize_column_name s) = sanitize_column_name s := by
  show String.mk (sanitizeL (String.mk (sanitizeL s.data)).data) = String.mk (sanitizeL s.data)
  rw [show (String.mk (sanitizeL s.data)).data = sanitizeL s.data from rfl, sanitizeL_idem]

/-- C7 (counterexample): `sanitize("UUIDField")` yields `"UUIDFIELD"`,
not the claimed `"UUID_FIELD"` — the sanitizer inserts no boundary
underscore before an uppercase letter that follows a lowercase letter. -/
theorem sanitize_uuid_field_cex :
    sanitize_column_name "UUIDField" = "UUIDFIELD" ∧
      sanitize_column_name "UUIDField" ≠ "UUID_FIELD" := by
  exact ⟨by decide, by decide⟩

/-- C7 (corrected): the sanitizer never inserts camel-case boundary
underscores (or any other character): for every input that does not
start with a digit — so the `COL_` prefix does not fire — the sanitized
name has exactly the input's length. -/
theorem sanitize_never_splits (s : String) (h : headIsDigit s.data = false) :
    (sanitize_column_name s).length = s.length := by
  have hh : ∀ l : List Char, headIsDigit l = false → headIsDigit (l.map substChar) = false := by
    intro l hl
    cases l with
    | nil => rfl
    | cons c cs =>
      simp only [List.map_cons, headIsDigit] at hl ⊢
      rw [substChar_isAsciiDigit]
      exact hl
  show (sanitizeL s.data).length = s.data.length
  simp only [sanitizeL]
  rw [hh s.data h]
  simp

/-- C7 (witness): the corrected statement instantiated at
`"UUIDField"`. -/
theorem sanitize_never_splits_witness :
    headIsDigit "UUIDField".data = false ∧
      (sanitize_column_name "UUIDField").length = "UUIDField".length :=
  ⟨by decide, sanitize_never_splits "UUIDField" (by decide)⟩

/-- A `pyDictUpdate` step keeps the key list duplicate-free. -/
theorem pyDictUpdate_keys_nodup (acc : List (String × Json)) (kv : String × Json)
    (h : (acc.map Prod.fst).Nodup) : ((pyDictUpdate acc kv).map Prod.fst).Nodup := by
  by_cases hmem : acc.any (fun p => p.1 == kv.1)
  · rw [pyDictUpdate, if_pos hmem]
    have : (acc.map (fun p => if p.1 == kv.1 then kv else p)).map Prod.fst = acc.map Prod.fst := by
      rw [List.map_map]
      apply List.map_congr_left
      intro p _
      by_cases hp : p.1 == kv.1
      · simp only [Function.comp_apply, hp, if_pos]
        exact (beq_iff_eq.mp hp).symm
      · simp only [Function.comp_apply, hp]
        rw [if_neg (by simp [hp])]
    rw [this]
    exact h
  · rw [pyDictUpdate, if_neg hmem]
    rw [List.map_append]
    rw [List.nodup_append]
    refine ⟨h, by simp, ?_⟩
    intro x hx
    obtain ⟨p, hp, rfl⟩ := List.mem_map.mp hx
    simp only [List.map_cons, List.map_nil, List.mem_singleton]
    intro hcon
    apply hmem
    rw [List.any_eq_true]
    exact ⟨p, hp, by simp [hcon]⟩

/-- Folding `pyDictUpdate` from a duplicate-free accumulator yields a
duplicate-free key list. -/
theorem pyDict_go_nodup (items : List (String × Json)) :
    ∀ acc : List (String × Json), (acc.map Prod.fst).Nodup →
      ((items.foldl pyDictUpdate acc).map Prod.fst).Nodup := by
  induction items with
  | nil => intro acc h; exact h
  | cons kv rest ih =>
    intro acc h
    exact ih (pyDictUpdate acc kv) (pyDictUpdate_keys_nodup acc kv h)

/-- C1 (counterexample): the document `{"a": {"b": 1}, "a_b": 2}` has
two leaves whose paths sanitize to the same name `A_B` from different
nesting levels; `flatten_json` records only one column, the later value
overwriting the earlier, so not every leaf gets a distinct column. -/
theorem flatten_loses_colliding_leaf :
    numLeaves exDocC1 = 2 ∧ flatten_json exDocC1 = [("A_B", Json.num 2)] ∧
      (flatten_json exDocC1).length ≠ numLeaves exDocC1 :=
  ⟨by decide, rfl, by decide⟩

/-- C1 (corrected): `flatten_json(d)` does produce a mapping with no two
equal keys for every document `d` — the Python `dict(items)` collapse
guarantees that — but the numeric-suffix uniquification only acts on the
leaf children of one traversal invocation; leaves whose sanitized paths
collide across nesting levels are merged, the later value overwriting
the earlier. -/
theorem flatten_json_keys_nodup (d : Json) : ((flatten_json d).map Prod.fst).Nodup :=
  pyDict_go_nodup (flattenItems d "") [] (by simp)

/-- C2 (counterexample): `_infer_and_cast_types` consults no name-rule
table and coerces nothing at all: on a schema holding an `EVENT_DATE` or
a `LEAD_SCORE` string column, the first `withColumn` builds a `CASE
WHEN` whose Boolean branches cannot be unified with the string-typed
else column, so the call raises an `AnalysisException` — no cell is ever
coerced to a timestamp or to an integer. -/
theorem cast_ignores_name_rules_cex :
    infer_and_cast_types [("EVENT_DATE", SparkType.stringT)] = Except.error analysisErrMsg ∧
      infer_and_cast_types [("LEAD_SCORE", SparkType.stringT)] = Except.error analysisErrMsg ∧
      (infer_and_cast_types [("EVENT_DATE", SparkType.stringT)]).isOk = false ∧
      (infer_and_cast_types [("LEAD_SCORE", SparkType.stringT)]).isOk = false :=
  ⟨rfl, rfl, rfl, rfl⟩

/-- C2 (corrected): only the fixed exemption list inspects column names;
under every non-exempt name — whatever its tokens — the attempted
boolean `CASE WHEN` against the string-typed column fails Spark's
common-type resolution (`stringPromotion` excludes `BooleanType`), so
`_infer_and_cast_types` raises instead of assigning any target type;
no timestamp and no integer cell is ever produced. -/
theorem cast_is_name_independent (name : String)
    (h : metadataExemptCols.contains name = false) :
    infer_and_cast_types [(name, SparkType.stringT)] = Except.error analysisErrMsg := by
  simp only [infer_and_cast_types]
  rw [if_neg (by simpa using h)]
  rfl

/-- C2 (witness): the corrected statement instantiated at the column
name `EVENT_DATE`. -/
theorem cast_is_name_independent_witness :
    metadataExemptCols.contains "EVENT_DATE" = false ∧
      infer_and_cast_types [("EVENT_DATE", SparkType.stringT)] = Except.error analysisErrMsg :=
  ⟨by decide, cast_is_name_independent "EVENT_DATE" (by decide)⟩

/-- C3 (counterexample): a batch whose schema holds the (non-exempt,
lowercase) payload column and a `LEAD_SCORE` column is not coerced
permissively: `_infer_and_cast_types` raises an `AnalysisException` at
the first non-exempt column, failing the whole batch, so a malformed
`LEAD_SCORE` cell is never coerced to null. -/
theorem malformed_numeric_not_nulled_cex :
    (infer_and_cast_types
        [("full_json_payload", SparkType.stringT), ("LEAD_SCORE", SparkType.stringT)]).isOk
        = false ∧
      infer_and_cast_types
          [("full_json_payload", SparkType.stringT), ("LEAD_SCORE", SparkType.stringT)] =
        Except.error analysisErrMsg :=
  ⟨rfl, rfl⟩

/-- `Except.map` preserves the ok/error discriminator. -/
theorem isOk_exceptMap {α β : Type} (f : α → β) (r : Except String α) :
    (Except.map f r).isOk = r.isOk := by
  cases r <;> rfl

/-- Both `withColumn` steps fail analysis on every column type in play:
a string or double column fails the boolean `CASE WHEN` outright, and a
boolean column passes it only to fail the numeric `CASE WHEN` (double
against boolean has no wider type either). -/
theorem column_steps_fail (t : SparkType) :
    booleanStepColumnType t = none ∨
      (booleanStepColumnType t = some SparkType.booleanT ∧
        numericStepColumnType SparkType.booleanT = none) := by
  cases t
  · left; rfl
  · right; exact ⟨rfl, rfl⟩
  · left; rfl

/-- Auxiliary induction: `_infer_and_cast_types` errors whenever its
schema holds any non-exempt column. -/
theorem cast_raises_aux :
    ∀ (cols : List (String × SparkType)) (name : String) (t : SparkType),
      (name, t) ∈ cols → metadataExemptCols.contains name = false →
      (infer_and_cast_types cols).isOk = false := by
  intro cols
  induction cols with
  | nil =>
    intro name t hmem _
    exact absurd hmem (List.not_mem_nil _)
  | cons p rest ih =>
    intro name t hmem hex
    obtain ⟨n0, t0⟩ := p
    by_cases hx : metadataExemptCols.contains n0 = true
    · have hmem' : (name, t) ∈ rest := by
        rcases List.mem_cons.mp hmem with h | h
        · injection h with hnn htt
          rw [← hnn] at hx
          rw [hex] at hx
          exact absurd hx (by decide)
        · exact h
      simp only [infer_and_cast_types]
      rw [if_pos hx, isOk_exceptMap]
      exact ih name t hmem' hex
    · simp only [infer_and_cast_types]
      rw [if_neg hx]
      rcases column_steps_fail t0 with hb | ⟨hb, _⟩ <;> rw [hb] <;> rfl

/-- C3 (corrected): the coercion is not permissive — it does raise:
whenever the schema contains any column outside the exemption list (and
every batch of this pipeline does, the lowercase payload column to
begin with), the boolean `CASE WHEN` with Boolean branches and a string
else fails Spark analysis and `_infer_and_cast_types` raises an
`AnalysisException`, failing the batch; no cell is ever nulled. -/
theorem cast_raises_on_any_nonexempt (cols : List (String × SparkType)) (name : String)
    (t : SparkType) (hmem : (name, t) ∈ cols)
    (hex : metadataExemptCols.contains name = false) :
    (infer_and_cast_types cols).isOk = false :=
  cast_raises_aux cols name t hmem hex

/-- C3 (witness): the corrected statement instantiated at the two-column
schema with `LEAD_SCORE`. -/
theorem cast_raises_on_any_nonexempt_witness :
    ("LEAD_SCORE", SparkType.stringT) ∈
        [("full_json_payload", SparkType.stringT), ("LEAD_SCORE", SparkType.stringT)] ∧
      metadataExemptCols.contains "LEAD_SCORE" = false ∧
      (infer_and_cast_types
        [("full_json_payload", SparkType.stringT), ("LEAD_SCORE", SparkType.stringT)]).isOk
        = false :=
  ⟨by decide, by decide,
    cast_raises_on_any_nonexempt
      [("full_json_payload", SparkType.stringT), ("LEAD_SCORE", SparkType.stringT)]
      "LEAD_SCORE" SparkType.stringT (by decide) (by decide)⟩

/-- C4 (counterexample): for the batch whose documents carry `X` as an
object in one and as a string in the other, the `map<string,string>`
round trip of `create_dataframe_from_documents` stringifies the nested
object before flattening, so both documents flatten to the single
column `X` — the assembled output's columns are exactly
`full_json_payload` and `X` for both rows, no `X_A` exists, and no
column name embeds a type suffix (`X_STRUCT` and `X_STRING` in
particular do not exist). -/
theorem no_type_suffix_columns_cex :
    (flatten_dataframe_row exDocC4obj).flattened = [("X", Json.str "\x7b\"A\":1\x7d")] ∧
      (flatten_dataframe_row exDocC4prim).flattened = [("X", Json.str "hi")] ∧
      (process_batch_row ["X"] (flatten_dataframe_row exDocC4obj)).map Prod.fst =
        ["full_json_payload", "X"] ∧
      (process_batch_row ["X"] (flatten_dataframe_row exDocC4prim)).map Prod.fst =
        ["full_json_payload", "X"] ∧
      "X_STRUCT" ∉ (process_batch_row ["X"] (flatten_dataframe_row exDocC4obj)).map Prod.fst ∧
      "X_STRING" ∉ (process_batch_row ["X"] (flatten_dataframe_row exDocC4obj)).map Prod.fst ∧
      "X_STRUCT" ∉ (process_batch_row ["X"] (flatten_dataframe_row exDocC4prim)).map Prod.fst ∧
      "X_STRING" ∉ (process_batch_row ["X"] (flatten_dataframe_row exDocC4prim)).map Prod.fst :=
  ⟨rfl, rfl, by decide, by decide, by decide, by decide, by decide, by decide⟩

/-- C4 (corrected): the two shapes share one column rather than getting
distinct type-suffixed columns: after the `from_json` round trip both
documents contribute exactly the column `X`, which holds the object's
JSON text in one row and the plain string in the other — a single
column carrying values of both source shapes, with no type-suffix
renaming anywhere before type coercion. -/
theorem object_vs_primitive_share_column :
    (flatten_dataframe_row exDocC4obj).flattened.map Prod.fst = ["X"] ∧
      (flatten_dataframe_row exDocC4prim).flattened.map Prod.fst = ["X"] ∧
      getItemCell (flatten_dataframe_row exDocC4obj).flattened "X" =
        CellVal.str "\x7b\"A\":1\x7d" ∧
      getItemCell (flatten_dataframe_row exDocC4prim).flattened "X" = CellVal.str "hi" :=
  ⟨by decide, by decide, by decide, by decide⟩

/-- C5 (counterexample): with introspected table columns `{A,B}` and
batch columns `{A,C}`, the writer issues `ALTER ... ADD COLUMN C` but
loads the batch exactly as-is: the loaded rows have columns `A,C` only,
and `B` is not backfilled as null into the load. -/
theorem snowflake_no_backfill_cex :
    (write_to_snowflake_plan ["A", "B"] ["A", "C"]).altersIssued = ["C"] ∧
      (write_to_snowflake_plan ["A", "B"] ["A", "C"]).loadedColumns = ["A", "C"] ∧
      "B" ∉ (write_to_snowflake_plan ["A", "B"] ["A", "C"]).loadedColumns :=
  ⟨by decide, by decide, by decide⟩

/-- C5 (corrected): for every introspected column set and batch, the
writer issues an additive ADD COLUMN exactly for each uppercased batch
column absent from the uppercased table columns, and the load step
receives exactly the batch's own columns — no table column missing from
the batch is backfilled as null before loading. -/
theorem snowflake_write_plan_spec (introspected dfCols : List String) :
    (write_to_snowflake_plan introspected dfCols).loadedColumns = dfCols ∧
      (∀ c, c ∈ (write_to_snowflake_plan introspected dfCols).altersIssued ↔
        (c ∈ dfCols.map pyUpper ∧ c ∉ introspected.map pyUpper)) := by
  refine ⟨rfl, ?_⟩
  intro c
  simp [write_to_snowflake_plan, List.mem_filter]

/-- C6 (counterexample): two rows sharing the `_ID` value `"x"` arriving
in different batches are both kept by the batch merge — the merged
output contains two rows with that identifier, not exactly one. -/
theorem merge_keeps_duplicate_ids_cex :
    countRowsWithMongoId
        (mergeBatches [[[("_ID", CellVal.str "x"), ("V", CellVal.str "1")]],
          [[("_ID", CellVal.str "x"), ("V", CellVal.str "2")]]])
        (CellVal.str "x") = 2 ∧
      countRowsWithMongoId
        (mergeBatches [[[("_ID", CellVal.str "x"), ("V", CellVal.str "1")]],
          [[("_ID", CellVal.str "x"), ("V", CellVal.str "2")]]])
        (CellVal.str "x") ≠ 1 :=
  ⟨by decide, by decide⟩

/-- C6 (corrected): no deduplication exists — the merged output is the
concatenation of all batches, so the number of rows carrying any given
identifier is the sum over batches, every occurrence kept; a second run
over identical input avoids duplication only because both sinks write in
overwrite mode, replacing the previous output wholesale. -/
theorem merge_is_concatenation :
    (∀ (bs : List (List Row)) (v : CellVal),
      countRowsWithMongoId (mergeBatches bs) v =
        (bs.map (fun b => countRowsWithMongoId b v)).sum) ∧
      adlsWriteMode = "overwrite" ∧ snowflakeSaveMode = "overwrite" := by
  refine ⟨?_, rfl, rfl⟩
  intro bs v
  induction bs with
  | nil => rfl
  | cons b rest ih =>
    simp only [mergeBatches, List.flatten_cons, countRowsWithMongoId, List.filter_append,
      List.length_append, List.map_cons, List.sum_cons] at ih ⊢
    rw [ih]

/-- The running union after a sequence of `add_batch_schema` calls is
the fold of unions over the observed sets. -/
theorem observeAll_all_fields (l : List (Finset String)) :
    ∀ t : SchemaTrackerState,
      (observeAll t l).all_fields = l.foldl (fun a b => a ∪ b) t.all_fields := by
  induction l with
  | nil => intro t; rfl
  | cons f rest ih =>
    intro t
    simp only [observeAll, List.foldl_cons] at ih ⊢
    exact ih (add_batch_schema t f)

/-- C8 (confirmed): the schema tracker computes a monotone running
union — after any sequence of `add_batch_schema` calls from a fresh
tracker, `get_unified_schema` is exactly the union of every observed
field set, and from any tracker state a further call sequence never
loses an element of the snapshot. -/
theorem schema_tracker_monotone_union :
    (∀ l : List (Finset String),
      get_unified_schema (observeAll initTracker l) = l.foldl (fun a b => a ∪ b) ∅) ∧
      (∀ (t : SchemaTrackerState) (l : List (Finset String)),
        get_unified_schema t ⊆ get_unified_schema (observeAll t l)) := by
  constructor
  · intro l
    exact observeAll_all_fields l initTracker
  · intro t l
    induction l generalizing t with
    | nil => exact fun x hx => hx
    | cons f rest ih =>
      intro x hx
      exact ih (add_batch_schema t f) (Finset.mem_union_left _ hx)

/-- C10 (code bug): the coercion exemption list holds the uppercase name
`FULL_JSON_PAYLOAD`, but the payload column is created lowercase as
`full_json_payload`, and the membership test is case-sensitive — so the
payload column is not exempt, the boolean `CASE WHEN` is built over it,
and its Boolean branches cannot unify with the string-typed payload:
`_infer_and_cast_types` raises an `AnalysisException` on every processed
batch instead of passing the payload through unchanged. -/
theorem full_json_payload_exemption_misses :
    metadataExemptCols.contains "full_json_payload" = false ∧
      metadataExemptCols.contains "FULL_JSON_PAYLOAD" = true ∧
      (process_batch_row ["A"] (flatten_dataframe_row exDocC10)).map Prod.fst =
        ["full_json_payload", "A"] ∧
      infer_and_cast_types
          (rowSchema (process_batch_row ["A"] (flatten_dataframe_row exDocC10))) =
        Except.error analysisErrMsg :=
  ⟨by decide, by decide, by decide, rfl⟩

end Events
